import Mathlib

/-!
Verification of the CDD-to-ODX conversion core (CDDconversion repository).

This file gives a shallow embedding, in Lean, of the two source modules the
claims are about:

* `src/src/main_cdd_to_odx.py` — the ODX normalizer/mapper
  (`_normalize_hex`, `_normalize_service_id`, `_get_positive_response_id`,
  `_get_service_name`, `_convert_service`, `_convert_data_identifier`);
* `src/enhanced_cdd_parser.py` — the tolerant CDD parser
  (`_parse_did`, `_extract_dids`, `_parse_protocol_service`,
  `_parse_service_message`, `_parse_component`).

Python strings are Lean `String`s manipulated through their character lists;
Python `None` is `Option.none`; Python string falsiness (`not s`) is
"`none` or empty".  Python `int(s)` / `int(s, 16)` are modelled by
`pyIntDec` / `pyIntBase16`, which implement CPython's grammar for those calls
restricted to ASCII whitespace: optional surrounding whitespace, an optional
sign, for base 16 an optional `0x`/`0X` prefix (itself optionally followed by
one underscore), and digits separated by single underscores.  Python
`format(i, "02X")` / `format(i, "04X")` are modelled by `format02X` /
`format04X`, including CPython's rendering of negative values (sign first,
zero padding counted against the total width).

XML elements, as produced by `xml.etree.ElementTree`, are modelled by
`XMLElem`: a tag, an attribute list, a text node and a child list.
ElementTree stores a namespaced attribute such as `xml:lang` under the
expanded key `{http://www.w3.org/XML/1998/namespace}lang`, never under the
literal key `xml:lang`; concrete elements below follow that convention.
-/

/-- ASCII whitespace characters recognised by Python's `str.strip()` and by
the whitespace skipping of `int()` (restricted to ASCII, which is all the
source files ever feed them). -/
def isPySpace (c : Char) : Bool :=
  c == ' ' || c == '\t' || c == '\n' || c == '\r' ||
  c == Char.ofNat 11 || c == Char.ofNat 12

/-- Python `str.strip()` on a character list. -/
def pyStrip (cs : List Char) : List Char :=
  ((cs.dropWhile isPySpace).reverse.dropWhile isPySpace).reverse

/-- Python `str.upper()` on a character list (ASCII). -/
def pyUpper (cs : List Char) : List Char :=
  cs.map Char.toUpper

/-- Value of one hexadecimal digit, if the character is one. -/
def hexVal? (c : Char) : Option Nat :=
  if '0' ≤ c ∧ c ≤ '9' then some (c.toNat - '0'.toNat)
  else if 'a' ≤ c ∧ c ≤ 'f' then some (c.toNat - 'a'.toNat + 10)
  else if 'A' ≤ c ∧ c ≤ 'F' then some (c.toNat - 'A'.toNat + 10)
  else none

/-- Value of one decimal digit, if the character is one. -/
def decVal? (c : Char) : Option Nat :=
  if '0' ≤ c ∧ c ≤ '9' then some (c.toNat - '0'.toNat) else none

/-- Digit accumulation for Python `int()`: digits of the given base, where a
single underscore may stand between two digits (CPython's underscore rule). -/
def digitsLoop (dv : Char → Option Nat) (base : Nat) : Nat → List Char → Option Nat
  | acc, [] => some acc
  | acc, c :: rest =>
    if c = '_' then
      match rest with
      | [] => none
      | d :: rest2 =>
        match dv d with
        | some v => digitsLoop dv base (acc * base + v) rest2
        | none => none
    else
      match dv c with
      | some v => digitsLoop dv base (acc * base + v) rest
      | none => none

/-- A nonempty digit run (with embedded underscores); must start with a digit. -/
def digitsBody (dv : Char → Option Nat) (base : Nat) : List Char → Option Nat
  | [] => none
  | c :: rest =>
    match dv c with
    | some v => digitsLoop dv base v rest
    | none => none

/-- The unsigned part of Python `int(s, 16)`: an optional `0x`/`0X` prefix
(optionally followed by one underscore) and then hex digits. -/
def pyHexBody (cs : List Char) : Option Nat :=
  match cs with
  | '0' :: c :: rest =>
    if c = 'x' ∨ c = 'X' then
      match rest with
      | '_' :: rest2 => digitsBody hexVal? 16 rest2
      | _ => digitsBody hexVal? 16 rest
    else digitsBody hexVal? 16 ('0' :: c :: rest)
  | _ => digitsBody hexVal? 16 cs

/-- Optional sign in front of an unsigned body, as Python `int()` allows. -/
def pySignedBody (body : List Char → Option Nat) (cs : List Char) : Option Int :=
  match cs with
  | '+' :: rest => (body rest).map (fun n => (n : Int))
  | '-' :: rest => (body rest).map (fun n => -(n : Int))
  | _ => (body cs).map (fun n => (n : Int))

/-- Python `int(s, 16)`. Returns `none` where CPython raises `ValueError`. -/
def pyIntBase16 (s : String) : Option Int :=
  pySignedBody pyHexBody (pyStrip s.data)

/-- Python `int(s)` (base 10). Returns `none` where CPython raises `ValueError`. -/
def pyIntDec (s : String) : Option Int :=
  pySignedBody (digitsBody decVal? 10) (pyStrip s.data)

/-- The uppercase hexadecimal digit character for a value below 16. -/
def hexDigitChar (n : Nat) : Char :=
  if n < 10 then Char.ofNat ('0'.toNat + n) else Char.ofNat ('A'.toNat + (n - 10))

/-- Hex digits of `n`, least significant first; the fuel argument bounds the
recursion depth and is always given as `n + 1`, which is ample. -/
def toHexRev : Nat → Nat → List Char
  | 0, _ => []
  | fuel + 1, n =>
    if n = 0 then [] else hexDigitChar (n % 16) :: toHexRev fuel (n / 16)

/-- Uppercase hexadecimal rendering of a natural number, no padding. -/
def toHexUpper (n : Nat) : List Char :=
  if n = 0 then ['0'] else (toHexRev (n + 1) n).reverse

/-- Left-pad with `'0'` up to the given width. -/
def padZeros (w : Nat) (cs : List Char) : List Char :=
  List.replicate (w - cs.length) '0' ++ cs

/-- Python `format(i, "0wX")` for a signed integer: for a negative value the
sign comes first and the zero padding counts against the total width. -/
def formatIntHex (width : Nat) (i : Int) : List Char :=
  if i < 0 then '-' :: padZeros (width - 1) (toHexUpper (-i).toNat)
  else padZeros width (toHexUpper i.toNat)

/-- Python `format(i, "02X")`. -/
def format02X (i : Int) : String :=
  String.mk (formatIntHex 2 i)

/-- Python `format(i, "04X")`. -/
def format04X (i : Int) : String :=
  String.mk (formatIntHex 4 i)

/-- Python `s.replace("0x", "")`: removes every (non-overlapping, left to
right) occurrence of the two-character substring `0x` — note: lowercase only,
exactly as in the source. -/
def pyReplace0x : List Char → List Char
  | '0' :: 'x' :: rest => pyReplace0x rest
  | c :: rest => c :: pyReplace0x rest
  | [] => []

/-- Python `s.replace(" ", "")`. -/
def pyDropSpaces (cs : List Char) : List Char :=
  cs.filter (fun c => c ≠ ' ')

/-- Python truthiness of an optional string: `None` and `""` are falsy. -/
def pyTruthy : Option String → Bool
  | none => false
  | some s => s != ""

/-- Python `v or dflt` for an optional string `v`. -/
def pyOrStr (v : Option String) (dflt : String) : String :=
  match v with
  | none => dflt
  | some s => if s = "" then dflt else s

/-- Python `v or dflt` for an optional integer `v` (`0` is falsy). -/
def pyOrInt (v : Option Int) (dflt : Int) : Int :=
  match v with
  | none => dflt
  | some n => if n = 0 then dflt else n

/-- Membership test of the check `all(c in '0123456789ABCDEF' for c in v)`
performed by the hex normalizers (the string is uppercased beforehand). -/
def isUpperHexDigit (c : Char) : Bool :=
  ('0' ≤ c && c ≤ '9') || ('A' ≤ c && c ≤ 'F')

/-- `v.startswith('0X')` on an already-uppercased character list. -/
def startsWith0X : List Char → Bool
  | '0' :: 'X' :: _ => true
  | _ => false

/-- `CDDToODXConverter._normalize_hex` from `src/src/main_cdd_to_odx.py`:
empty input is returned as is; otherwise the value is stripped and uppercased,
and if it does not start with `0X` and consists solely of uppercase hex digits
it is prefixed with a lowercase `0x`. -/
def normalize_hex (value : String) : String :=
  if value = "" then value
  else
    let v := pyUpper (pyStrip value.data)
    if !startsWith0X v && v.all isUpperHexDigit then String.mk ('0' :: 'x' :: v)
    else String.mk v

/-- `CDDToODXConverter._normalize_service_id` from `src/src/main_cdd_to_odx.py`:
same normalization as `normalize_hex` but an empty input yields `"0x00"`. -/
def normalize_service_id (service_id : String) : String :=
  if service_id = "" then "0x00"
  else
    let v := pyUpper (pyStrip service_id.data)
    if !startsWith0X v && v.all isUpperHexDigit then String.mk ('0' :: 'x' :: v)
    else String.mk v

/-- `CDDToODXConverter._get_positive_response_id` from
`src/src/main_cdd_to_odx.py`: parse the service ID as base 16, add `0x40` and
format as `0x` plus `format(_, "02X")`; if parsing raises, return `"0x7F"`. -/
def get_positive_response_id (service_id : String) : String :=
  match pyIntBase16 service_id with
  | some request_id => "0x" ++ format02X (request_id + 0x40)
  | none => "0x7F"

/-- The `uds_services` table of `CDDToODXConverter` (`main_cdd_to_odx.py`). -/
def uds_services : List (String × String) :=
  [("0x10", "DiagnosticSessionControl"),
   ("0x11", "ECUReset"),
   ("0x14", "ClearDiagnosticInformation"),
   ("0x19", "ReadDTCInformation"),
   ("0x22", "ReadDataByIdentifier"),
   ("0x23", "ReadMemoryByAddress"),
   ("0x24", "ReadScalingDataByIdentifier"),
   ("0x27", "SecurityAccess"),
   ("0x28", "CommunicationControl"),
   ("0x2A", "ReadDataByPeriodicIdentifier"),
   ("0x2C", "DynamicallyDefineDataIdentifier"),
   ("0x2E", "WriteDataByIdentifier"),
   ("0x2F", "InputOutputControlByIdentifier"),
   ("0x31", "RoutineControl"),
   ("0x34", "RequestDownload"),
   ("0x35", "RequestUpload"),
   ("0x36", "TransferData"),
   ("0x37", "RequestTransferExit"),
   ("0x3D", "WriteMemoryByAddress"),
   ("0x3E", "TesterPresent"),
   ("0x83", "AccessTimingParameter"),
   ("0x84", "SecuredDataTransmission"),
   ("0x85", "ControlDTCSetting"),
   ("0x86", "ResponseOnEvent"),
   ("0x87", "LinkControl")]

/-- `CDDToODXConverter._get_service_name`: the standard UDS name for the
normalized SID when known, else the original name, else `Service_<id>` with
the `0x` occurrences removed from the id. -/
def get_service_name (service_id : String) (original_name : Option String) : String :=
  match uds_services.lookup service_id with
  | some n => n
  | none => pyOrStr original_name ("Service_" ++ String.mk (pyReplace0x service_id.data))

/-- A Python dict with string keys and string-or-`None` values, as used for
the parameter descriptors flowing through `_convert_service`. -/
abbrev PyDict := List (String × Option String)

/-- Python `d.get(k)`: `None` both when the key is absent and when it is
present with value `None`. -/
def pyGet (d : PyDict) (k : String) : Option String :=
  match d.lookup k with
  | some v => v
  | none => none

/-- The source-side `Service` dataclass from `src/src/models/cdd_model.py`
(the fields `_convert_service` reads; all identity fields are optional). -/
structure Service where
  id : Option String
  name : Option String
  description : Option String
  request_params : List PyDict
  response_params : List PyDict

/-- The source-side `DataIdentifier` dataclass from
`src/src/models/cdd_model.py` (the fields `_convert_data_identifier` reads). -/
structure DataIdentifier where
  identifier : Option String
  name : Option String
  description : Option String
  length : Option Int
  encoding : Option String
  signals : List PyDict

/-- The `ODXService` record produced by the mapper. -/
structure ODXService where
  id : String
  name : String
  service_id : String
  request_params : List PyDict
  response_params : List PyDict
  description : String

/-- The `ODXDataIdentifier` record produced by the mapper (`struct` models
the Python field named `structure`). -/
structure ODXDataIdentifier where
  id : String
  identifier : String
  name : String
  description : String
  data_type : String
  length : Int
  struct : List PyDict

/-- The response-parameter contribution of one source response parameter in
`_convert_service` (lines 155–168 of `main_cdd_to_odx.py`): a `DataIdentifier`
entry followed by a synthetic `Data` entry.  When the `value` key is present
but holds `None`, the source expression `param.get('value', '').replace(...)`
raises `AttributeError` (the default is not used for a present key); that
unhandled exception is modelled as the `Except.error` case. -/
def respEntry (p : PyDict) : Except String (List PyDict) :=
  if pyGet p "type" == some "DataIdentifier" then
    match p.lookup "value" with
    | some none => .error "AttributeError"
    | _ =>
      let did_id := String.mk (pyReplace0x ((pyGet p "value").getD "").data)
      .ok [[("type", some "DataIdentifier"), ("name", some "DID"),
            ("value", pyGet p "value")],
           [("type", some "Data"), ("name", some ("DID_" ++ did_id ++ "_Data")),
            ("structure_ref", some ("DOP.DID_" ++ did_id))]]
  else .ok []

/-- The response-parameter loop of `_convert_service`, concatenating the
contributions of the source response parameters in order. -/
def buildRespParams : List PyDict → Except String (List PyDict)
  | [] => .ok []
  | p :: rest =>
    match respEntry p with
    | .error s => .error s
    | .ok e =>
      match buildRespParams rest with
      | .error s => .error s
      | .ok r => .ok (e ++ r)

/-- `CDDToODXConverter._convert_service` from `src/src/main_cdd_to_odx.py`:
drops the service (returns `none`) when `id` or `name` is falsy; otherwise
emits an `ODXService` whose request parameters start with a `ServiceId` entry
carrying the normalized SID followed by the source `DataIdentifier` request
parameters, and whose response parameters start with a `ServiceId` entry
carrying the derived positive-response ID followed by the per-DID pairs of
`respEntry`.  The `Except` layer carries the one unhandled exception the
function can raise (see `respEntry`). -/
def convert_service (service : Service) : Except String (Option ODXService) :=
  if !pyTruthy service.id || !pyTruthy service.name then .ok none
  else
    let service_id := normalize_service_id (service.id.getD "")
    let service_name := get_service_name service_id service.name
    let request_params :=
      [("type", some "ServiceId"), ("name", some "ServiceId"),
       ("value", some service_id)] ::
      (service.request_params.filter
          (fun p => pyGet p "type" == some "DataIdentifier")).map
        (fun p => [("type", some "DataIdentifier"), ("name", some "DID"),
                   ("value", pyGet p "value")])
    let positive_response_id := get_positive_response_id service_id
    match buildRespParams service.response_params with
    | .error s => .error s
    | .ok resp =>
      .ok (some
        { id := String.mk (pyDropSpaces service_name.data)
          name := service_name
          service_id := service_id
          request_params := request_params
          response_params :=
            [("type", some "ServiceId"), ("name", some "ServiceId"),
             ("value", some positive_response_id)] :: resp
          description := pyOrStr service.description (service_name ++ " service") })

/-- `CDDToODXConverter._convert_data_identifier` from
`src/src/main_cdd_to_odx.py`: drops the DID (returns `none`) when
`identifier` or `name` is falsy; otherwise emits an `ODXDataIdentifier` with
the identifier normalized by `normalize_hex`. -/
def convert_data_identifier (did : DataIdentifier) : Option ODXDataIdentifier :=
  if !pyTruthy did.identifier || !pyTruthy did.name then none
  else
    let did_id := normalize_hex (did.identifier.getD "")
    some
      { id := "DID_" ++ String.mk (pyReplace0x did_id.data)
        identifier := did_id
        name := pyOrStr did.name ("DID_" ++ String.mk (pyReplace0x did_id.data))
        description := pyOrStr did.description ("Data Identifier " ++ did_id)
        data_type := pyOrStr did.encoding "BYTEFIELD"
        length := pyOrInt did.length 1
        struct := did.signals }

/- An XML element as exposed by `xml.etree.ElementTree`: tag, attribute
dictionary, text node, children.  The child list is a mutually inductive list
so that the recursive tree walks below are structural and reduce in the
kernel. -/
mutual
inductive XMLElem : Type where
  | mk (tag : String) (attrs : List (String × String)) (text : Option String)
       (children : XMLList)
inductive XMLList : Type where
  | nil : XMLList
  | cons : XMLElem → XMLList → XMLList
end

def XMLList.ofList : List XMLElem → XMLList
  | [] => .nil
  | e :: rest => .cons e (XMLList.ofList rest)

def XMLList.toList : XMLList → List XMLElem
  | .nil => []
  | .cons e rest => e :: XMLList.toList rest

def XMLElem.tag : XMLElem → String
  | .mk t _ _ _ => t

def XMLElem.attrs : XMLElem → List (String × String)
  | .mk _ a _ _ => a

def XMLElem.text : XMLElem → Option String
  | .mk _ _ x _ => x

def XMLElem.children : XMLElem → XMLList
  | .mk _ _ _ cs => cs

/- Pre-order lists of a subtree (element first, then its descendants) and of
a forest; `subtreeL e.children` is exactly the node set and document order
that ElementTree's `.//` descendant axis iterates. -/
mutual
def subtreeE : XMLElem → List XMLElem
  | .mk t a x cs => .mk t a x cs :: subtreeL cs
def subtreeL : XMLList → List XMLElem
  | .nil => []
  | .cons e rest => subtreeE e ++ subtreeL rest
end

/-- All strict descendants of an element, in document order. -/
def descendants (e : XMLElem) : List XMLElem :=
  subtreeL e.children

/-- `elem.get(k)`. -/
def attrGet (e : XMLElem) (k : String) : Option String :=
  e.attrs.lookup k

/-- `elem.get(k, d)`. -/
def attrGetD (e : XMLElem) (k d : String) : String :=
  (attrGet e k).getD d

/-- `k in elem.attrib`. -/
def hasAttrKey (e : XMLElem) (k : String) : Bool :=
  e.attrs.any (fun kv => kv.1 == k)

/-- The direct children carrying a given tag, in document order. -/
def childrenNamed (e : XMLElem) (t : String) : List XMLElem :=
  e.children.toList.filter (fun c => c.tag == t)

/-- `elem.find('T')`: first direct child with tag `T`. -/
def findChild (e : XMLElem) (t : String) : Option XMLElem :=
  e.children.toList.find? (fun c => c.tag == t)

/-- `elem.find('T1/T2')`: first grandchild reached through a `T1` child. -/
def findPath2 (e : XMLElem) (t1 t2 : String) : Option XMLElem :=
  ((childrenNamed e t1).flatMap (fun c => childrenNamed c t2)).head?

/-- `elem.findall('.//T')`: all strict descendants with tag `T`. -/
def findAllDesc (e : XMLElem) (t : String) : List XMLElem :=
  (descendants e).filter (fun c => c.tag == t)

/-- `elem.find('.//T')`. -/
def findDesc (e : XMLElem) (t : String) : Option XMLElem :=
  (descendants e).find? (fun c => c.tag == t)

/-- The first element of `elem.findall('.//DESC//TUV')` — `TUV` descendants
of `DESC` descendants, grouped by `DESC` in document order. -/
def findTuvUnderDesc (e : XMLElem) : Option XMLElem :=
  ((findAllDesc e "DESC").flatMap (fun d => findAllDesc d "TUV")).head?

/-- `elem.find(".//CONSTCOMP[@spec='sid']")`: first descendant `CONSTCOMP`
whose `spec` attribute equals `sid` — searched in the whole service element,
responses included. -/
def findSidComp (e : XMLElem) : Option XMLElem :=
  (descendants e).find?
    (fun c => c.tag == "CONSTCOMP" && attrGet c "spec" == some "sid")

/-- Lines 319–328 of `enhanced_cdd_parser.py`: the UDS service ID as read by
`_parse_protocol_service` — the `v` attribute of the first `sid`-tagged
constant component anywhere in the service element, parsed as a decimal
integer when nonempty; `none` when the component or attribute is missing or
the parse fails. -/
def udsFromElem (e : XMLElem) : Option Int :=
  match findSidComp e with
  | some comp =>
    if attrGetD comp "v" "" ≠ "" then pyIntDec (attrGetD comp "v" "") else none
  | none => none

/-- The expanded attribute key under which ElementTree stores `xml:lang`. -/
def xmlLangKey : String :=
  "\x7bhttp://www.w3.org/XML/1998/namespace\x7dlang"

/-- The localized-text selector of `_parse_did` (line 200 of
`enhanced_cdd_parser.py`): the first element satisfying
`'xml:lang' not in elem.attrib or elem.get('{ns}lang') == 'en-US'`, with the
first element overall as the fallback.  Since ElementTree stores `xml:lang`
under `xmlLangKey` and never under the literal key `xml:lang`, the first
disjunct holds for every parsed element. -/
def pickTuvEnUS (tuvs : List XMLElem) : Option XMLElem :=
  match tuvs.find?
      (fun el => !hasAttrKey el "xml:lang" || attrGet el xmlLangKey == some "en-US") with
  | some el => some el
  | none => tuvs.head?

/-- The `CDDComponent` dataclass of `enhanced_cdd_parser.py` (the
`description` field is never set by `_parse_component` and stays `""`). -/
structure CDDComponent where
  id : String
  name : Option String
  qualifier : Option String
  description : String
  component_type : String
  must : Bool
  spec : String
  bit_length : String
  value : String
  data_type_ref : String

/-- The `CDDServiceMessage` dataclass of `enhanced_cdd_parser.py`. -/
structure CDDServiceMessage where
  id : String
  name : Option String
  qualifier : Option String
  components : List CDDComponent

/-- The `CDDProtocolService` dataclass of `enhanced_cdd_parser.py`. -/
structure CDDProtocolService where
  id : String
  name : Option String
  qualifier : Option String
  description : String
  uds_service_id : Option Int
  func : Bool
  phys : Bool
  multiple_response : Bool
  response_on_physical : Bool
  response_on_functional : Bool
  request : Option CDDServiceMessage
  positive_response : Option CDDServiceMessage
  negative_response : Option CDDServiceMessage

/-- The `CDDDataObject` dataclass of `enhanced_cdd_parser.py`. -/
structure CDDDataObject where
  id : String
  name : Option String
  qualifier : Option String
  description : String
  data_type_ref : String
  spec : String

/-- The `CDDDID` dataclass of `enhanced_cdd_parser.py`. -/
structure CDDDID where
  id : String
  number : Int
  number_hex : String
  name : Option String
  qualifier : Option String
  description : Option String
  data_objects : List CDDDataObject

/-- `EnhancedCDDParser._parse_component`: total — every code path in the
source succeeds, so the `try` / `return None` wrapper is unreachable. -/
def parse_component (e : XMLElem) (comp_type : String) : CDDComponent :=
  let name_elem :=
    match findPath2 e "NAME" "TUV" with
    | some el => some el
    | none => (findAllDesc e "TUV").head?
  { id := attrGetD e "id" ""
    name := match name_elem with
            | some el => el.text
            | none => some "Component"
    qualifier := match findChild e "QUAL" with
                 | some q => q.text
                 | none => some ""
    description := ""
    component_type := comp_type
    must := attrGet e "must" == some "1"
    spec := attrGetD e "spec" ""
    bit_length := attrGetD e "bl" ""
    value := attrGetD e "v" ""
    data_type_ref := attrGetD e "dtref" "" }

/-- `EnhancedCDDParser._parse_service_message`: the three component kinds are
collected by descendant search in a fixed order (constant, static,
simple-proxy); total for the same reason as `parse_component`. -/
def parse_service_message (e : XMLElem) : CDDServiceMessage :=
  let name_elem :=
    match findPath2 e "NAME" "TUV" with
    | some el => some el
    | none => (findAllDesc e "TUV").head?
  { id := attrGetD e "id" ""
    name := match name_elem with
            | some el => el.text
            | none => some "Message"
    qualifier := match findChild e "QUAL" with
                 | some q => q.text
                 | none => some ""
    components :=
      (findAllDesc e "CONSTCOMP").map (fun c => parse_component c "CONSTCOMP") ++
      (findAllDesc e "STATICCOMP").map (fun c => parse_component c "STATICCOMP") ++
      (findAllDesc e "SIMPLEPROXYCOMP").map (fun c => parse_component c "SIMPLEPROXYCOMP") }

/-- `EnhancedCDDParser._parse_data_object`: total (no failing path). -/
def parse_data_object (e : XMLElem) : CDDDataObject :=
  let name_elem :=
    match findPath2 e "NAME" "TUV" with
    | some el => some el
    | none => (findAllDesc e "TUV").head?
  let name : Option String :=
    match name_elem with
    | some el => el.text
    | none => some "DataObject"
  { id := attrGetD e "id" ""
    name := name
    qualifier := match findChild e "QUAL" with
                 | some q => q.text
                 | none => name
    description := ""
    data_type_ref := attrGetD e "dtref" ""
    spec := attrGetD e "spec" "" }

/-- `EnhancedCDDParser._parse_protocol_service` (lines 290–373 of
`enhanced_cdd_parser.py`).  Two points deserve note, both modelled exactly as
the source behaves:

* the name fallback at lines 297–299 takes the first `TUV` descendant with no
  language preference (unlike `_parse_did`);
* the description resolution at lines 310–317 evaluates
  `self._get_enhanced_service_description(name_elem.text, uds_service_id)` —
  but `uds_service_id` is a local first assigned at line 320, so reaching that
  branch raises `UnboundLocalError`, which the blanket `except` at line 371
  turns into a `None` result.  Hence the whole service is dropped whenever the
  `DESC/TUV` text is falsy and the name text is truthy; the enrichment table
  is unreachable from here.

The UDS service ID is taken from the first descendant `CONSTCOMP` with
`spec="sid"` anywhere in the element (responses included), its `v` attribute
parsed as a decimal integer, parse failure leaving the field unset
(`udsFromElem`).  The function is decomposed here into `serviceNameElem`,
`serviceDescText`, `serviceNameTextTruthy`, `mkProtocolService` and the
top-level branch structure of `parse_protocol_service`.

First, the name element resolution of lines 296–299: the exact `NAME/TUV`
path, else the first `TUV` descendant. -/
def serviceNameElem (e : XMLElem) : Option XMLElem :=
  match findPath2 e "NAME" "TUV" with
  | some el => some el
  | none => (findAllDesc e "TUV").head?

/-- The `DESC/TUV` text of a service element (lines 310–312). -/
def serviceDescText (e : XMLElem) : Option String :=
  match findPath2 e "DESC" "TUV" with
  | some d => d.text
  | none => none

/-- Whether the resolved name element exists and has truthy text — the
condition of the `elif` at line 313. -/
def serviceNameTextTruthy (e : XMLElem) : Bool :=
  match serviceNameElem e with
  | some el => pyTruthy el.text
  | none => false

/-- The `CDDProtocolService` record `_parse_protocol_service` builds, as a
function of the description (every other field is read off the element the
same way on every non-raising path). -/
def mkProtocolService (e : XMLElem) (description : String) : CDDProtocolService :=
  { id := attrGetD e "id" ""
    name :=
      match serviceNameElem e with
      | some el => el.text
      | none => some "Unknown Service"
    qualifier :=
      match findChild e "QUAL" with
      | some q => q.text
      | none => some ""
    description := description
    uds_service_id := udsFromElem e
    func := attrGet e "func" == some "1"
    phys := attrGet e "phys" == some "1"
    multiple_response := attrGet e "mresp" == some "1"
    response_on_physical := attrGet e "respOnPhys" == some "1"
    response_on_functional := attrGet e "respOnFunc" == some "1"
    request := (findChild e "REQ").map parse_service_message
    positive_response := (findChild e "POS").map parse_service_message
    negative_response := (findChild e "NEG").map parse_service_message }

/-- The branch structure of `_parse_protocol_service` (lines 310–317 plus
the surrounding `try`): truthy `DESC/TUV` text is used as the description;
otherwise a truthy name text routes into the enrichment call that raises
`UnboundLocalError`, so the blanket `except` returns `None`; otherwise the
generic description is used. -/
def parse_protocol_service (e : XMLElem) : Option CDDProtocolService :=
  if pyTruthy (serviceDescText e) then
    some (mkProtocolService e ((serviceDescText e).getD ""))
  else if serviceNameTextTruthy e then
    none
  else
    some (mkProtocolService e "UDS diagnostic service")

/-- `EnhancedCDDParser._parse_did` (lines 188–236 of
`enhanced_cdd_parser.py`): the number is `int(elem.get('n', '0'))` — decimal;
an unparsable `n` raises inside the `try` and the blanket `except` returns
`None`, dropping the DID (the only failing path).  The hex form is computed
from the parsed number, `f"0x{number:04X}"`.  The name fallback uses the
`en-US`-guarded selector `pickTuvEnUS`; the description falls back to the
first `TUV` under a `DESC` descendant; data objects come only from under the
`STRUCTURE` child. -/
def parse_did (e : XMLElem) : Option CDDDID :=
  let did_id := attrGetD e "id" ""
  match pyIntDec (attrGetD e "n" "0") with
  | none => none
  | some did_number =>
    let did_hex := "0x" ++ format04X did_number
    let name_elem :=
      match findPath2 e "NAME" "TUV" with
      | some el => some el
      | none => pickTuvEnUS (findAllDesc e "TUV")
    let name : Option String :=
      match name_elem with
      | some el => el.text
      | none => some ("DID_" ++ did_hex)
    let qualifier : Option String :=
      match findChild e "QUAL" with
      | some q => q.text
      | none => name
    let desc_elem :=
      match findPath2 e "DESC" "TUV" with
      | some el => some el
      | none => findTuvUnderDesc e
    let description : Option String :=
      match desc_elem with
      | some el => el.text
      | none => some ""
    let data_objects :=
      match findChild e "STRUCTURE" with
      | some st => (findAllDesc st "DATAOBJ").map parse_data_object
      | none => []
    some
      { id := did_id
        number := did_number
        number_hex := did_hex
        name := name
        qualifier := qualifier
        description := description
        data_objects := data_objects }

/-- `EnhancedCDDParser._extract_dids`: locate the first `DIDS` descendant of
the root, parse its direct `DID` children in order, and keep the successful
ones (`if did:` is true for every dataclass instance, so exactly the
non-`None` results are appended). -/
def extract_dids (root : XMLElem) : List CDDDID :=
  match findDesc root "DIDS" with
  | none => []
  | some s => (childrenNamed s "DID").filterMap parse_did

/-!
Helper lemmas and sample inputs used by the claim theorems.
-/

/-- Removal of one leading `0x` prefix — the reading of
`<hex-without-0x-prefix>` used by the specification. -/
def dropPfx0x (cs : List Char) : List Char :=
  match cs with
  | '0' :: 'x' :: rest => rest
  | _ => cs

lemma pyReplace0x_eq_self (cs : List Char) (h : 'x' ∉ cs) : pyReplace0x cs = cs := by
  induction cs using pyReplace0x.induct with
  | case1 rest => simp at h
  | case2 c rest hne ih =>
    have hx : 'x' ∉ rest := fun hm => h (List.mem_cons_of_mem _ hm)
    rw [pyReplace0x.eq_def]
    split
    · next rest2 => simp_all
    · next c2 rest2 heq =>
      injection heq with h1 h2
      subst h1; subst h2
      exact congrArg (c :: ·) (ih hx)
    · next heq => simp at heq
  | case3 => rfl

/-- On a value whose remainder after the optional `0x` prefix contains no
`'x'` (true of every hex-digit string), Python's substring replacement
`replace("0x", "")` coincides with plain prefix removal. -/
lemma pyReplace0x_eq_dropPfx0x (cs : List Char) (h : 'x' ∉ dropPfx0x cs) :
    pyReplace0x cs = dropPfx0x cs := by
  rw [dropPfx0x.eq_def] at *
  split at h
  · next rest => exact pyReplace0x_eq_self rest h
  · next hne => exact pyReplace0x_eq_self _ h

/-- The pair of response entries the claim describes for one `DataIdentifier`
source parameter: the copied `DataIdentifier` entry and the synthetic `Data`
entry whose structure reference is `DOP.DID_` plus the value with its `0x`
prefix removed. -/
def didRespPair (p : PyDict) : List PyDict :=
  let hexNoPfx := String.mk (dropPfx0x ((pyGet p "value").getD "").data)
  [[("type", some "DataIdentifier"), ("name", some "DID"),
    ("value", pyGet p "value")],
   [("type", some "Data"), ("name", some ("DID_" ++ hexNoPfx ++ "_Data")),
    ("structure_ref", some ("DOP.DID_" ++ hexNoPfx))]]

lemma respEntry_ok (p : PyDict) (r : List PyDict)
    (hx : 'x' ∉ dropPfx0x ((pyGet p "value").getD "").data)
    (hr : respEntry p = .ok r) :
    r = if pyGet p "type" == some "DataIdentifier" then didRespPair p else [] := by
  unfold respEntry at hr
  split at hr
  · next htype =>
    rw [if_pos htype]
    split at hr
    · exact absurd hr (by simp)
    · next hv =>
      injection hr with hr
      subst hr
      unfold didRespPair
      rw [pyReplace0x_eq_dropPfx0x _ hx]
  · next htype => rw [if_neg htype]; injection hr with hr; exact hr.symm

lemma buildRespParams_ok (ps : List PyDict) (r : List PyDict)
    (hx : ∀ p ∈ ps, 'x' ∉ dropPfx0x ((pyGet p "value").getD "").data)
    (hr : buildRespParams ps = .ok r) :
    r = ps.flatMap
      (fun p => if pyGet p "type" == some "DataIdentifier" then didRespPair p
                else []) := by
  induction ps generalizing r with
  | nil =>
    injection hr with hr
    subst hr
    rfl
  | cons p rest ih =>
    unfold buildRespParams at hr
    cases he : respEntry p with
    | error s => rw [he] at hr; exact absurd hr (by simp)
    | ok e =>
      rw [he] at hr
      cases hb : buildRespParams rest with
      | error s => rw [hb] at hr; exact absurd hr (by simp)
      | ok rr =>
        rw [hb] at hr
        injection hr with hr
        subst hr
        rw [List.flatMap_cons]
        rw [respEntry_ok p e (hx p (List.mem_cons_self p rest)) he,
            ih rr (fun q hq => hx q (List.mem_cons_of_mem _ hq)) hb]

/-- Shorthand constructor for concrete XML elements. -/
def xel (tag : String) (attrs : List (String × String)) (text : Option String)
    (children : List XMLElem) : XMLElem :=
  XMLElem.mk tag attrs text (XMLList.ofList children)

/-- A service element with a name and no description — the scenario of the
spec sentence "no `DESC` text and a name `DiagnosticSessionControl`". -/
def svcC6 : XMLElem :=
  xel "PROTOCOLSERVICE" [("id", "svc1")] none
    [xel "NAME" [] none [xel "TUV" [] (some "DiagnosticSessionControl") []]]

/-- A named service whose request carries a `sid` constant component with a
non-numeric `v` attribute, and which has no description text. -/
def svcC7 : XMLElem :=
  xel "PROTOCOLSERVICE" [("id", "svc2")] none
    [xel "NAME" [] none [xel "TUV" [] (some "SomeService") []],
     xel "REQ" [] none [xel "CONSTCOMP" [("spec", "sid"), ("v", "xyz")] none []]]

/-- A service with description text and a `sid` constant component `v="16"`. -/
def svcC7d16 : XMLElem :=
  xel "PROTOCOLSERVICE" [("id", "svc2a")] none
    [xel "DESC" [] none [xel "TUV" [] (some "d") []],
     xel "REQ" [] none [xel "CONSTCOMP" [("spec", "sid"), ("v", "16")] none []]]

/-- A service with description text and a non-numeric `sid` component. -/
def svcC7dbad : XMLElem :=
  xel "PROTOCOLSERVICE" [("id", "svc2b")] none
    [xel "DESC" [] none [xel "TUV" [] (some "d") []],
     xel "REQ" [] none [xel "CONSTCOMP" [("spec", "sid"), ("v", "xyz")] none []]]

/-- A service whose only `sid` constant component sits inside the positive
response, not the request. -/
def svcC8 : XMLElem :=
  xel "PROTOCOLSERVICE" [("id", "svc4")] none
    [xel "DESC" [] none [xel "TUV" [] (some "d") []],
     xel "REQ" [] none [],
     xel "POS" [] none [xel "CONSTCOMP" [("spec", "sid"), ("v", "16")] none []]]

/-- The service record `parse_protocol_service` produces for `svcC8`. -/
def svcC8parsed : CDDProtocolService :=
  { id := "svc4"
    name := some "d"
    qualifier := some ""
    description := "d"
    uds_service_id := some 16
    func := false
    phys := false
    multiple_response := false
    response_on_physical := false
    response_on_functional := false
    request := some { id := "", name := some "Message", qualifier := some "", components := [] }
    positive_response := some
      { id := ""
        name := some "Message"
        qualifier := some ""
        components := [{ id := "", name := some "Component", qualifier := some "",
                         description := "", component_type := "CONSTCOMP", must := false,
                         spec := "sid", bit_length := "", value := "16", data_type_ref := "" }] }
    negative_response := none }

/-- A DID element whose preferred `NAME/TUV` path is empty and whose two
`TUV` descendants carry `xml:lang` `de-DE` then `en-US` (stored, as
ElementTree does, under the expanded namespace key). -/
def didC9 : XMLElem :=
  xel "DID" [("id", "d9"), ("n", "1")] none
    [xel "X" [] none
      [xel "TUV" [(xmlLangKey, "de-DE")] (some "Hallo") [],
       xel "TUV" [(xmlLangKey, "en-US")] (some "Hello") []]]

/-- A DID element with no `n` attribute and no name text. -/
def didC10 : XMLElem :=
  xel "DID" [("id", "d10")] none []

/-- A document root containing `didC10` inside its `DIDS` section. -/
def rootC10 : XMLElem :=
  xel "ROOT" [] none [xel "DIDS" [] none [didC10]]

/-- A DID element with `n="65168"` and a name. -/
def didC2 : XMLElem :=
  xel "DID" [("id", "d2"), ("n", "65168")] none
    [xel "NAME" [] none [xel "TUV" [] (some "SystemSupplierId") []]]

/-- The DID record `parse_did` produces for `didC2`. -/
def didC2parsed : CDDDID :=
  { id := "d2"
    number := 65168
    number_hex := "0xFE90"
    name := some "SystemSupplierId"
    qualifier := some "SystemSupplierId"
    description := some ""
    data_objects := [] }

/-- A source service record with no identity fields at all. -/
def svcNoIdentity : Service :=
  { id := none, name := none, description := none,
    request_params := [], response_params := [] }

/-- A well-populated source service record used as the concrete instance of
the parameter-list claim. -/
def svcC4 : Service :=
  { id := some "22"
    name := some "My Service"
    description := none
    request_params := [[("type", some "DataIdentifier"), ("value", some "0xF190")]]
    response_params := [[("type", some "DataIdentifier"), ("value", some "0xF190")]] }

/-- The ODX record `convert_service` produces for `svcC4`. -/
def odxC4 : ODXService :=
  { id := "ReadDataByIdentifier"
    name := "ReadDataByIdentifier"
    service_id := "0x22"
    request_params :=
      [[("type", some "ServiceId"), ("name", some "ServiceId"), ("value", some "0x22")],
       [("type", some "DataIdentifier"), ("name", some "DID"), ("value", some "0xF190")]]
    response_params :=
      [[("type", some "ServiceId"), ("name", some "ServiceId"), ("value", some "0x62")],
       [("type", some "DataIdentifier"), ("name", some "DID"), ("value", some "0xF190")],
       [("type", some "Data"), ("name", some "DID_F190_Data"),
        ("structure_ref", some "DOP.DID_F190")]]
    description := "ReadDataByIdentifier service" }

/-- A source DID record with no identifier. -/
def didNoIdentifier : DataIdentifier :=
  { identifier := none, name := some "N", description := none,
    length := none, encoding := none, signals := [] }

/-- A source DID record with both identity fields present. -/
def didWithIdentity : DataIdentifier :=
  { identifier := some "F190", name := some "N", description := none,
    length := none, encoding := none, signals := [] }

/-!
The claim theorems.
-/

/-- Claim C1: for every service-ID string that parses as a base-16 integer
`n`, the derived positive-response identifier is `0x` plus the two-digit
(zero-padded, uppercase) hex rendering of `n + 0x40` — in particular
`0x22 ↦ 0x62` and `0x3E ↦ 0x7E` — and for every string that does not parse
as base 16 it defaults to the negative-response marker `0x7F`. -/
theorem C1_positive_response_id :
    (∀ (s : String) (n : Int), pyIntBase16 s = some n →
      get_positive_response_id s = "0x" ++ format02X (n + 0x40)) ∧
    (∀ s : String, pyIntBase16 s = none → get_positive_response_id s = "0x7F") ∧
    get_positive_response_id "0x22" = "0x62" ∧
    get_positive_response_id "0x3E" = "0x7E" ∧
    get_positive_response_id "not-hex" = "0x7F" := by
  refine ⟨fun s n h => ?_, fun s h => ?_, rfl, rfl, rfl⟩
  · unfold get_positive_response_id
    rw [h]
  · unfold get_positive_response_id
    rw [h]

/-- Witness for C1 at the concrete inputs `"0x22"` (parses to 34) and
`"zz"` (does not parse). -/
theorem C1_positive_response_id_witness :
    pyIntBase16 "0x22" = some 34 ∧
    get_positive_response_id "0x22" = "0x" ++ format02X (34 + 0x40) ∧
    pyIntBase16 "zz" = none ∧
    get_positive_response_id "zz" = "0x7F" :=
  ⟨rfl, C1_positive_response_id.1 "0x22" 34 rfl, rfl,
   C1_positive_response_id.2.1 "zz" rfl⟩

/-- Claim C2: every DID record produced by `parse_did` has
`number_hex = "0x" ++ format(number, "04X")` — the hex form is computed from
the parsed number, never read separately from the file — and the DID with
`n="65168"` comes out with `number_hex = "0xFE90"`. -/
theorem C2_number_hex_derived :
    (∀ (e : XMLElem) (d : CDDDID), parse_did e = some d →
      d.number_hex = "0x" ++ format04X d.number) ∧
    (parse_did didC2).map (fun d => (d.number, d.number_hex)) =
      some (65168, "0xFE90") := by
  refine ⟨fun e d h => ?_, rfl⟩
  unfold parse_did at h
  split at h
  · exact absurd h (by simp)
  · next did_number hn =>
    injection h with h
    subst h
    rfl

/-- Witness for C2 at the concrete element `didC2`. -/
theorem C2_number_hex_derived_witness :
    parse_did didC2 = some didC2parsed ∧
    didC2parsed.number_hex = "0x" ++ format04X didC2parsed.number :=
  ⟨rfl, C2_number_hex_derived.1 didC2 didC2parsed rfl⟩

/-- Counterexample to claim C3: the already-prefixed input `"0xfe90"` is
normalized to `"0XFE90"` — the whole string, prefix included, is uppercased —
not to the claimed `"0xFE90"`. -/
theorem C3_normalize_hex_counterexample :
    normalize_hex "0xfe90" = "0XFE90" ∧ "0XFE90" ≠ "0xFE90" :=
  ⟨rfl, by decide⟩

/-- Claim C3 as amended: every nonempty input is first stripped and fully
uppercased; if the result does not start with `0X` and is made of hex digits
only, a lowercase `0x` prefix is added (`"FE90" ↦ "0xFE90"`); otherwise the
stripped uppercased string is returned as is, so an already-prefixed string
has its prefix uppercased too (`"0xfe90" ↦ "0XFE90"`), normalization is not
idempotent on unprefixed hex strings (the second pass uppercases the prefix
just added), and non-hex strings come back stripped and uppercased rather
than unchanged. -/
theorem C3_normalize_hex_amended :
    (∀ s : String, s ≠ "" →
      startsWith0X (pyUpper (pyStrip s.data)) = false →
      (pyUpper (pyStrip s.data)).all isUpperHexDigit = true →
      normalize_hex s = String.mk ('0' :: 'x' :: pyUpper (pyStrip s.data))) ∧
    (∀ s : String, s ≠ "" →
      (startsWith0X (pyUpper (pyStrip s.data)) = true ∨
        (pyUpper (pyStrip s.data)).all isUpperHexDigit = false) →
      normalize_hex s = String.mk (pyUpper (pyStrip s.data))) ∧
    normalize_hex "FE90" = "0xFE90" ∧
    normalize_hex "0xfe90" = "0XFE90" ∧
    normalize_hex (normalize_hex "FE90") ≠ normalize_hex "FE90" ∧
    normalize_hex " hello " = "HELLO" := by
  refine ⟨fun s hne hpfx hhex => ?_, fun s hne hcond => ?_, rfl, rfl, by decide, rfl⟩
  · simp [normalize_hex, hne, hpfx, hhex]
  · cases hcond with
    | inl h => simp [normalize_hex, hne, h]
    | inr h => simp [normalize_hex, hne, h]

/-- Witness for the amended C3 at the concrete inputs `"AB"` (prefixing
branch) and `"0Xab"` (pass-through branch). -/
theorem C3_normalize_hex_amended_witness :
    normalize_hex "AB" = String.mk ('0' :: 'x' :: pyUpper (pyStrip "AB".data)) ∧
    normalize_hex "0Xab" = String.mk (pyUpper (pyStrip "0Xab".data)) :=
  ⟨C3_normalize_hex_amended.1 "AB" (by decide) rfl rfl,
   C3_normalize_hex_amended.2.1 "0Xab" (by decide) (Or.inl rfl)⟩

/-- Claim C4: whenever `convert_service` emits an ODX service and every
response-parameter value is hex-shaped (after removing an optional `0x`
prefix no `'x'` remains — true of every `0x`-prefixed or bare hex-digit
string), the request parameter list is the `ServiceId` entry carrying the
normalized SID followed by the `DataIdentifier` entries taken from the source
request parameters, and the response parameter list is the `ServiceId` entry
carrying the derived positive-response ID followed, for each `DataIdentifier`
source response parameter, by the copied entry and a synthetic `Data` entry
whose structure reference is `DOP.DID_` plus the value without its `0x`
prefix. -/
theorem C4_parameter_lists :
    ∀ (service : Service) (odx : ODXService),
      convert_service service = .ok (some odx) →
      (∀ p ∈ service.response_params,
        'x' ∉ dropPfx0x ((pyGet p "value").getD "").data) →
      odx.request_params =
        [("type", some "ServiceId"), ("name", some "ServiceId"),
         ("value", some (normalize_service_id (service.id.getD "")))] ::
        (service.request_params.filter
            (fun p => pyGet p "type" == some "DataIdentifier")).map
          (fun p => [("type", some "DataIdentifier"), ("name", some "DID"),
                     ("value", pyGet p "value")]) ∧
      odx.response_params =
        [("type", some "ServiceId"), ("name", some "ServiceId"),
         ("value", some (get_positive_response_id
            (normalize_service_id (service.id.getD ""))))] ::
        service.response_params.flatMap
          (fun p => if pyGet p "type" == some "DataIdentifier" then didRespPair p
                    else []) := by
  intro service odx h hx
  unfold convert_service at h
  split at h
  · exact absurd h (by simp)
  · split at h
    · exact absurd h (by simp)
    · next resp hb =>
      injection h with h
      injection h with h
      subst h
      refine ⟨rfl, ?_⟩
      simp only []
      rw [buildRespParams_ok service.response_params resp hx hb]

/-- Witness for C4 at the concrete service `svcC4` (SID `22`, one
`DataIdentifier` parameter `0xF190` on each side). -/
theorem C4_parameter_lists_witness :
    odxC4.request_params =
      [("type", some "ServiceId"), ("name", some "ServiceId"),
       ("value", some (normalize_service_id (svcC4.id.getD "")))] ::
      (svcC4.request_params.filter
          (fun p => pyGet p "type" == some "DataIdentifier")).map
        (fun p => [("type", some "DataIdentifier"), ("name", some "DID"),
                   ("value", pyGet p "value")]) ∧
    odxC4.response_params =
      [("type", some "ServiceId"), ("name", some "ServiceId"),
       ("value", some (get_positive_response_id
          (normalize_service_id (svcC4.id.getD ""))))] ::
      svcC4.response_params.flatMap
        (fun p => if pyGet p "type" == some "DataIdentifier" then didRespPair p
                  else []) :=
  C4_parameter_lists svcC4 odxC4 rfl (by decide)

/-- Counterexample to claim C5: a service record with no identity fields is
not emitted with defaults — `convert_service` drops it (returns no result),
just as the DID mapper does. -/
theorem C5_service_drop_counterexample :
    convert_service svcNoIdentity = .ok none :=
  rfl

/-- Claim C5 as amended: the ODX mapper's drop policy is symmetric — a DID
record lacking identifier or name is excluded from the output, and a service
record lacking id or name is likewise excluded (rather than emitted with
default field values); records with both identity fields present are
emitted on both sides. -/
theorem C5_drop_policy_amended :
    (∀ did : DataIdentifier,
      pyTruthy did.identifier = false ∨ pyTruthy did.name = false →
      convert_data_identifier did = none) ∧
    (∀ did : DataIdentifier,
      pyTruthy did.identifier = true → pyTruthy did.name = true →
      convert_data_identifier did ≠ none) ∧
    (∀ s : Service,
      pyTruthy s.id = false ∨ pyTruthy s.name = false →
      convert_service s = .ok none) ∧
    (∀ s : Service,
      pyTruthy s.id = true → pyTruthy s.name = true →
      convert_service s ≠ .ok none) := by
  refine ⟨fun did h => ?_, fun did h1 h2 => ?_, fun s h => ?_, fun s h1 h2 => ?_⟩
  · cases h with
    | inl h => simp [convert_data_identifier, h]
    | inr h => simp [convert_data_identifier, h]
  · simp [convert_data_identifier, h1, h2]
  · cases h with
    | inl h => simp [convert_service, h]
    | inr h => simp [convert_service, h]
  · unfold convert_service
    rw [h1, h2]
    simp only [Bool.not_true, Bool.or_self, Bool.false_eq_true, if_false]
    split
    · simp
    · simp

/-- Witness for the amended C5 at concrete records on all four sides. -/
theorem C5_drop_policy_amended_witness :
    convert_data_identifier didNoIdentifier = none ∧
    convert_data_identifier didWithIdentity ≠ none ∧
    convert_service svcNoIdentity = .ok none ∧
    convert_service svcC4 ≠ .ok none :=
  ⟨C5_drop_policy_amended.1 didNoIdentifier (Or.inl rfl),
   C5_drop_policy_amended.2.1 didWithIdentity rfl rfl,
   C5_drop_policy_amended.2.2.1 svcNoIdentity (Or.inl rfl),
   C5_drop_policy_amended.2.2.2 svcC4 rfl rfl⟩

/-- Claim C6, shown to be a code bug: for the service element `svcC6`, which
has no `DESC` text and carries the name `DiagnosticSessionControl`, the
parser does not return a record with the canonical 0x10 description — the
enrichment call at line 315 of `enhanced_cdd_parser.py` reads the local
`uds_service_id` before its assignment at line 326, the resulting
`UnboundLocalError` is swallowed by the blanket `except`, and the whole
service is dropped. -/
theorem C6_enrichment_description_code_bug :
    (findPath2 svcC6 "NAME" "TUV").map XMLElem.text =
      some (some "DiagnosticSessionControl") ∧
    serviceDescText svcC6 = none ∧
    parse_protocol_service svcC6 = none :=
  ⟨rfl, rfl, rfl⟩

/-- Claim C7, shown to be a code bug: the `sid` handling itself behaves as
claimed when a record is produced (`v="16"` yields `udsServiceId = 16`; a
non-numeric `v` leaves it unset), but for `svcC7` — a named service with no
`DESC` text whose `sid` component has the non-numeric value `"xyz"` — the
record is not "still returned with its other fields populated": the same
unbound-local slip as in C6 drops the whole service. -/
theorem C7_nonnumeric_sid_code_bug :
    (findSidComp svcC7).map (fun c => attrGetD c "v" "") = some "xyz" ∧
    pyIntDec "xyz" = none ∧
    parse_protocol_service svcC7 = none ∧
    (parse_protocol_service svcC7d16).map (fun s => s.uds_service_id) =
      some (some 16) ∧
    (parse_protocol_service svcC7dbad).map (fun s => s.uds_service_id) =
      some none :=
  ⟨rfl, rfl, rfl, rfl, rfl⟩

/-- Counterexample to claim C8: for `svcC8` the only `sid`-tagged constant
component sits inside the positive response — the request contains none — yet
the parsed service carries `udsServiceId = 16`: the search is not scoped to
the request message. -/
theorem C8_sid_outside_request_counterexample :
    parse_protocol_service svcC8 = some svcC8parsed ∧
    svcC8parsed.uds_service_id = some 16 ∧
    (findChild svcC8 "REQ").map findSidComp = some none :=
  ⟨rfl, rfl, rfl⟩

/-- Claim C8 as amended: whenever a parsed service has `udsServiceId = n`,
the value is derivable from a constant component tagged `spec="sid"` located
anywhere inside the service element (not necessarily in the request message),
whose nonempty `v` attribute parses to `n` as a decimal integer. -/
theorem C8_uds_derivation_amended :
    ∀ (e : XMLElem) (svc : CDDProtocolService) (n : Int),
      parse_protocol_service e = some svc →
      svc.uds_service_id = some n →
      ∃ comp ∈ descendants e, comp.tag = "CONSTCOMP" ∧
        attrGet comp "spec" = some "sid" ∧ attrGetD comp "v" "" ≠ "" ∧
        pyIntDec (attrGetD comp "v" "") = some n := by
  intro e svc n h hu
  have huds : svc.uds_service_id = udsFromElem e := by
    unfold parse_protocol_service at h
    split at h
    · injection h with h; subst h; rfl
    · split at h
      · exact absurd h (by simp)
      · injection h with h; subst h; rfl
  rw [huds] at hu
  unfold udsFromElem at hu
  split at hu
  · next comp hfind =>
    split at hu
    · next hv =>
      have hp := List.find?_some hfind
      simp only [Bool.and_eq_true, beq_iff_eq] at hp
      exact ⟨comp, List.mem_of_find?_eq_some hfind, hp.1, hp.2, hv, hu⟩
    · exact absurd hu (by simp)
  · exact absurd hu (by simp)

/-- Witness for the amended C8 at the concrete element `svcC8`. -/
theorem C8_uds_derivation_amended_witness :
    ∃ comp ∈ descendants svcC8, comp.tag = "CONSTCOMP" ∧
      attrGet comp "spec" = some "sid" ∧ attrGetD comp "v" "" ≠ "" ∧
      pyIntDec (attrGetD comp "v" "") = some 16 :=
  C8_uds_derivation_amended svcC8 svcC8parsed 16 rfl rfl

/-- Claim C9, shown to be a code bug: `didC9` has no `NAME/TUV` match and
two `TUV` descendants, the first tagged `de-DE` (text `Hallo`), the second
explicitly tagged `en-US` (text `Hello`); the claim says the `en-US` variant
is preferred, but the parsed name is `Hallo` — the guard at line 200 of
`enhanced_cdd_parser.py` tests for the literal key `'xml:lang'`, which
ElementTree never stores (it uses the expanded
`{http://www.w3.org/XML/1998/namespace}lang` key), so the first match always
wins and the `en-US` preference is dead code (the service-side fallback at
lines 297–299 has no preference logic at all). -/
theorem C9_language_preference_code_bug :
    findPath2 didC9 "NAME" "TUV" = none ∧
    (findAllDesc didC9 "TUV").map (fun t => (attrGet t xmlLangKey, t.text)) =
      [(some "de-DE", some "Hallo"), (some "en-US", some "Hello")] ∧
    (parse_did didC9).map (fun d => d.name) = some (some "Hallo") :=
  ⟨rfl, rfl, rfl⟩

/-- Claim C10: a DID element with no `n` attribute is parsed, not dropped —
the number defaults to 0, the hex form to `"0x0000"`, the name (absent any
name text) to `"DID_0x0000"` — and the record is appended to the document's
DID list. -/
theorem C10_missing_n_defaults :
    (∀ e : XMLElem, attrGet e "n" = none →
      ∃ d : CDDDID, parse_did e = some d ∧ d.number = 0 ∧
        d.number_hex = "0x0000") ∧
    (parse_did didC10).map (fun d => (d.number, d.number_hex, d.name)) =
      some (0, "0x0000", some "DID_0x0000") ∧
    (extract_dids rootC10).map (fun d => (d.number, d.number_hex, d.name)) =
      [(0, "0x0000", some "DID_0x0000")] := by
  refine ⟨fun e h => ?_, rfl, rfl⟩
  have hn : attrGetD e "n" "0" = "0" := by simp [attrGetD, h]
  unfold parse_did
  rw [hn]
  rw [show pyIntDec "0" = some 0 from rfl]
  exact ⟨_, rfl, rfl, rfl⟩

/-- Witness for C10 at the concrete element `didC10`. -/
theorem C10_missing_n_defaults_witness :
    attrGet didC10 "n" = none ∧
    ∃ d : CDDDID, parse_did didC10 = some d ∧ d.number = 0 ∧
      d.number_hex = "0x0000" :=
  ⟨rfl, C10_missing_n_defaults.1 didC10 rfl⟩
